import Mathlib

/-!
Shallow embedding of `lhotse/features/whisper_fbank.py`.

Real numbers (`ℝ`) stand in for floating point.  Matrices produced by the
spectrogram engine are `List (List ℝ)` (row major, mel bins × frames), while
the static recombination utilities `mix` and `compute_energy` operate on
`Matrix (Fin m) (Fin n) ℝ`, since they are element-wise operations over
equal-shaped numpy arrays.  Python exceptions (the sampling-rate assertion in
`extract` and the `NameError` raised by the padding branch of
`log_mel_spectrogram`, which references `F` although `torch.nn.functional` is
never imported) are embedded as `Except.error`.
-/

open scoped BigOperators

/-- Modelled from the spec: `EPSILON` is imported from `lhotse.utils`, which is
not part of the source under verification; the spec describes it as "a small
positive floor protecting against a zero or negative argument to the
logarithm".  Its value in `lhotse.utils` is `1e-10`. -/
def EPSILON : ℝ := 1e-10

/-- `torch.hann_window(n_fft)` with the default periodic window:
`w k = 0.5 * (1 - cos (2 * π * k / n))`. -/
noncomputable def hann_window (n : ℕ) : List ℝ :=
  (List.range n).map (fun k => 1 / 2 * (1 - Real.cos (2 * Real.pi * k / n)))

/-- Reflection padding with `p` samples on each side, as applied by
`torch.stft` with its defaults `center=True, pad_mode="reflect"`. -/
def reflectPad (x : List ℝ) (p : ℕ) : List ℝ :=
  ((x.drop 1).take p).reverse ++ x ++ ((x.reverse.drop 1).take p)

/-- Discrete Fourier transform bin `f` of a real frame:
`∑ k, frame k * exp (-2 π i f k / n_fft)`. -/
noncomputable def dft (frame : List ℝ) (n_fft f : ℕ) : ℂ :=
  (frame.enum.map (fun p =>
    ((p.2 : ℝ) : ℂ) *
      Complex.exp (-(((2 * Real.pi * p.1 * f / n_fft : ℝ) : ℂ)) * Complex.I))).sum

/-- `torch.stft(audio, n_fft, hop_length, window=hann, return_complex=True)`
with the defaults `center=True` (reflect padding by `n_fft / 2`),
`onesided=True` (bins `0 .. n_fft / 2`), producing
`audio.length / hop_length + 1` frames.  Row major: frequency bin × frame. -/
noncomputable def stft (audio : List ℝ) (n_fft hop_length : ℕ) : List (List ℂ) :=
  let padded := reflectPad audio (n_fft / 2)
  let n_frames := audio.length / hop_length + 1
  let window := hann_window n_fft
  (List.range (n_fft / 2 + 1)).map (fun f =>
    (List.range n_frames).map (fun t =>
      dft (List.zipWith (fun w x => w * x) window ((padded.drop (t * hop_length)).take n_fft))
        n_fft f))

/-- `magnitudes = stft[..., :-1].abs() ** 2`: the last time frame is dropped,
then the squared magnitude is taken. -/
noncomputable def magnitudes (audio : List ℝ) (n_fft hop_length : ℕ) : List (List ℝ) :=
  (stft audio n_fft hop_length).map (fun row => row.dropLast.map (fun z => Complex.abs z ^ 2))

/-- Dot product of two rows, truncating to the shorter one (shapes always
agree in the pipeline). -/
noncomputable def dot (x y : List ℝ) : ℝ :=
  (List.zipWith (fun a b => a * b) x y).sum

/-- Matrix product `A @ B` on row-major `List (List ℝ)`. -/
noncomputable def matMul (A B : List (List ℝ)) : List (List ℝ) :=
  A.map (fun row =>
    (List.range (B.headD []).length).map (fun t => dot row (B.map (fun br => br.getD t 0))))

/-- `mel_spec = filters @ magnitudes` where
`filters = librosa.filters.mel(sr=sampling_rate, n_fft=n_fft, n_mels=n_mels)`.
`librosa` is an external library (an out-of-scope collaborator per the spec),
so the filterbank constructor is passed in as the parameter `melBank`,
applied to `sampling_rate`, `n_fft` and `n_mels` exactly as in the source. -/
noncomputable def mel_energies (audio : List ℝ) (melBank : ℕ → ℕ → ℕ → List (List ℝ))
    (n_mels n_fft hop_length sampling_rate : ℕ) : List (List ℝ) :=
  matMul (melBank sampling_rate n_fft n_mels) (magnitudes audio n_fft hop_length)

/-- `t.max()` for a tensor: the greatest element of the matrix.  `torch`
raises on an empty tensor; the embedding returns `0` there (that case is
excluded by hypothesis wherever it matters). -/
noncomputable def matMax (m : List (List ℝ)) : ℝ :=
  m.flatten.maximum.unbot' 0

/-- Lines 56–67 of `whisper_fbank.py`: the computation after the padding
branch.  `log_spec = torch.clamp(mel_spec, min=1e-10).log10()`, then
`log_spec = torch.maximum(log_spec, log_spec.max() - 8.0)`, then
`log_spec = (log_spec + 4.0) / 4.0`.  Device moves do not change values and
are dropped in the embedding. -/
noncomputable def mel_pipeline (audio : List ℝ) (melBank : ℕ → ℕ → ℕ → List (List ℝ))
    (n_mels n_fft hop_length sampling_rate : ℕ) : List (List ℝ) :=
  let mel_spec := mel_energies audio melBank n_mels n_fft hop_length sampling_rate
  let log_spec := mel_spec.map (List.map (fun x => Real.logb 10 (max x (1e-10))))
  let log_spec2 := log_spec.map (List.map (fun x => max x (matMax log_spec - 8)))
  let log_spec3 := log_spec2.map (List.map (fun x => (x + 4) / 4))
  log_spec3

/-- Lines 49–67 of `whisper_fbank.py`.  The `padding > 0` branch evaluates
`F.pad(audio, (0, padding))`, but the module never imports
`torch.nn.functional` and binds no name `F`, so that branch raises a Python
`NameError` at run time; the embedding returns the corresponding error. -/
noncomputable def log_mel_spectrogram (audio : List ℝ)
    (melBank : ℕ → ℕ → ℕ → List (List ℝ))
    (n_mels n_fft hop_length sampling_rate padding : ℕ) :
    Except String (List (List ℝ)) :=
  if padding > 0 then
    .error "NameError: name F is not defined"
  else
    .ok (mel_pipeline audio melBank n_mels n_fft hop_length sampling_rate)

/-- `WhisperFbankConfig` with its documented defaults. -/
structure WhisperFbankConfig where
  sampling_rate : ℕ := 16000
  num_filters : ℕ := 80
  hop_length : ℕ := 160
  n_fft : ℕ := 400
  device : String := "cpu"

/-- The `WhisperFbank` extractor: a bound configuration. -/
structure WhisperFbank where
  config : WhisperFbankConfig

/-- `to(device)` mutates the bound configuration's device field; embedded as a
functional update returning the new adapter state. -/
def WhisperFbank.to (self : WhisperFbank) (device : String) : WhisperFbank :=
  { self with config := { self.config with device := device } }

/-- `feature_dim` returns the configured number of filters regardless of the
passed sampling rate. -/
def WhisperFbank.feature_dim (self : WhisperFbank) (sampling_rate : ℕ) : ℕ :=
  self.config.num_filters

/-- A 1-D waveform, either a plain numpy array or a torch tensor carrying a
device tag.  Device moves change only the tag, never the sample values. -/
inductive AudioInput where
  | np (data : List ℝ)
  | tensor (data : List ℝ) (device : String)

/-- The samples carried by an input (`torch.from_numpy` preserves values). -/
def AudioInput.data : AudioInput → List ℝ
  | .np d => d
  | .tensor d _ => d

/-- The `is_numpy` flag computed at the top of `extract`. -/
def AudioInput.is_numpy : AudioInput → Bool
  | .np _ => true
  | .tensor _ _ => false

/-- A feature matrix returned by `extract`, either as a numpy array
(`feats.cpu().numpy()`) or as a torch tensor on the engine's device. -/
inductive FeatureOutput where
  | np (data : List (List ℝ))
  | tensor (data : List (List ℝ)) (device : String)

/-- The numeric content of an extraction result, with the representation and
device tag stripped. -/
def featData : Except String FeatureOutput → Option (List (List ℝ))
  | .ok (.np d) => some d
  | .ok (.tensor d _) => some d
  | .error _ => none

/-- The device tag of an extraction result, when it is a tensor. -/
def featDevice : Except String FeatureOutput → Option String
  | .ok (.tensor _ dv) => some dv
  | _ => none

/-- The message of the `assert` at the top of `extract`, built exactly as the
source f-string interpolates the configured and the passed rate. -/
def extractAssertMsg (configured passed : ℕ) : String :=
  "Fbank was instantiated for sampling_rate " ++ toString configured ++
    ", but sampling_rate=" ++ toString passed ++
    " was passed to extract(). Note you can use CutSet/RecordingSet.resample() to change the audio sampling rate."

/-- `WhisperFbank.extract`.  The source asserts the sampling rate first, then
converts a numpy input to a tensor, calls `log_mel_spectrogram` without a
`padding` argument (so `padding` takes its default `0`), and mirrors the
input representation on the output.  As in the source, the tensor result
lives on the configured device and a numpy input is answered with
`feats.cpu().numpy()`, which holds the same values. -/
noncomputable def WhisperFbank.extract (self : WhisperFbank)
    (melBank : ℕ → ℕ → ℕ → List (List ℝ))
    (samples : AudioInput) (sampling_rate : ℕ) : Except String FeatureOutput :=
  if sampling_rate = self.config.sampling_rate then
    match log_mel_spectrogram samples.data melBank self.config.num_filters
        self.config.n_fft self.config.hop_length self.config.sampling_rate 0 with
    | .error e => .error e
    | .ok feats =>
      if samples.is_numpy then .ok (.np feats)
      else .ok (.tensor feats self.config.device)
  else
    .error (extractAssertMsg self.config.sampling_rate sampling_rate)

/-- `WhisperFbank.mix`:
`np.log(np.maximum(EPSILON, np.exp(a) + k * np.exp(b)))`, element-wise over
equal-shaped arrays. -/
noncomputable def WhisperFbank.mix {m n : ℕ}
    (features_a features_b : Matrix (Fin m) (Fin n) ℝ)
    (energy_scaling_factor_b : ℝ) : Matrix (Fin m) (Fin n) ℝ :=
  Matrix.of fun i j =>
    Real.log (max EPSILON
      (Real.exp (features_a i j) + energy_scaling_factor_b * Real.exp (features_b i j)))

/-- `WhisperFbank.compute_energy`: `float(np.sum(np.exp(features)))`. -/
noncomputable def WhisperFbank.compute_energy {m n : ℕ}
    (features : Matrix (Fin m) (Fin n) ℝ) : ℝ :=
  ∑ i, ∑ j, Real.exp (features i j)

/-- Spec step 5, first half: element-wise clamp of the mel energies to a
minimum of `1e-10`. -/
noncomputable def specClampFloor (m : List (List ℝ)) : List (List ℝ) :=
  m.map (List.map (fun x => max x (1e-10)))

/-- Spec step 5, second half: element-wise base-10 logarithm. -/
noncomputable def specLog10 (m : List (List ℝ)) : List (List ℝ) :=
  m.map (List.map (fun x => Real.logb 10 x))

/-- Spec step 7: the final affine normalization `(x + 4.0) / 4.0`,
element-wise. -/
noncomputable def specAffine (m : List (List ℝ)) : List (List ℝ) :=
  m.map (List.map (fun x => (x + 4) / 4))

/-- The log-mel matrix the spec's dynamic-range clamp operates on: clamp the
mel energies at `1e-10`, then take the base-10 logarithm. -/
noncomputable def specLogMel (audio : List ℝ) (melBank : ℕ → ℕ → ℕ → List (List ℝ))
    (n_mels n_fft hop_length sampling_rate : ℕ) : List (List ℝ) :=
  specLog10 (specClampFloor (mel_energies audio melBank n_mels n_fft hop_length sampling_rate))

/-- A concrete stand-in filterbank used to instantiate witnesses: one mel
filter with two coefficients. -/
noncomputable def melBank0 : ℕ → ℕ → ℕ → List (List ℝ) :=
  fun _ _ n_mels => List.replicate n_mels (List.replicate 2 (1 : ℝ))

/-- `mix` applied at equal shapes never dips below `log EPSILON`: the
argument of the logarithm is floored at `EPSILON` element-wise. -/
theorem mix_apply {m n : ℕ} (a b : Matrix (Fin m) (Fin n) ℝ) (k : ℝ)
    (i : Fin m) (j : Fin n) :
    WhisperFbank.mix a b k i j =
      Real.log (max EPSILON (Real.exp (a i j) + k * Real.exp (b i j))) := rfl

/-- C5: with the scaling factor for the second signal equal to zero,
`mix(a, a, 0.0) = a` for every feature matrix `a` whose entries are valid
log-energies, i.e. whose linear energies are at least `EPSILON` (so the
`EPSILON` floor does not engage); the engine's output always satisfies this. -/
theorem whisper_c5_mix_zero_identity {m n : ℕ} (a : Matrix (Fin m) (Fin n) ℝ)
    (hvalid : ∀ i j, EPSILON ≤ Real.exp (a i j)) :
    WhisperFbank.mix a a 0 = a := by
  ext i j
  have h1 : Real.exp (a i j) + 0 * Real.exp (a i j) = Real.exp (a i j) := by ring
  rw [mix_apply, h1, max_eq_right (hvalid i j), Real.log_exp]

/-- C5 witness: the all-zero 1×1 matrix is valid and is a fixed point of
mixing with itself at scaling factor `0`. -/
theorem whisper_c5_witness :
    WhisperFbank.mix (0 : Matrix (Fin 1) (Fin 1) ℝ) 0 0 = 0 :=
  whisper_c5_mix_zero_identity 0 (by
    intro i j
    norm_num [Matrix.zero_apply, Real.exp_zero, EPSILON])

/-- C6: the mixed log-energy is monotonically non-decreasing in the scaling
factor applied to the second signal's linear energy. -/
theorem whisper_c6_mix_monotone {m n : ℕ} (a b : Matrix (Fin m) (Fin n) ℝ)
    (k1 k2 : ℝ) (h : k1 ≤ k2) (i : Fin m) (j : Fin n) :
    WhisperFbank.mix a b k1 i j ≤ WhisperFbank.mix a b k2 i j := by
  rw [mix_apply, mix_apply]
  apply Real.log_le_log
  · exact lt_of_lt_of_le (by norm_num [EPSILON]) (le_max_left _ _)
  · exact max_le_max le_rfl
      (add_le_add_left (mul_le_mul_of_nonneg_right h (Real.exp_nonneg _)) _)

/-- C6 witness: at scaling factors `0 ≤ 1` on concrete 1×1 matrices. -/
theorem whisper_c6_witness :
    WhisperFbank.mix (0 : Matrix (Fin 1) (Fin 1) ℝ) 0 0 0 0 ≤
      WhisperFbank.mix (0 : Matrix (Fin 1) (Fin 1) ℝ) 0 1 0 0 :=
  whisper_c6_mix_monotone 0 0 0 1 zero_le_one 0 0

/-- C9: every element of a mixed matrix is at least `log EPSILON`, however
negative the inputs or the scaling factor are. -/
theorem whisper_c9_mix_lower_bound {m n : ℕ} (a b : Matrix (Fin m) (Fin n) ℝ)
    (k : ℝ) (i : Fin m) (j : Fin n) :
    Real.log EPSILON ≤ WhisperFbank.mix a b k i j := by
  rw [mix_apply]
  exact Real.log_le_log (by norm_num [EPSILON]) (le_max_left _ _)

/-- C7: `compute_energy` is the sum of `exp` over all elements, and on an
all-zero matrix it returns exactly the element count `m * n`. -/
theorem whisper_c7_compute_energy :
    (∀ m n : ℕ,
      WhisperFbank.compute_energy (0 : Matrix (Fin m) (Fin n) ℝ) = (m : ℝ) * n) ∧
    (∀ (m n : ℕ) (A : Matrix (Fin m) (Fin n) ℝ),
      WhisperFbank.compute_energy A = ∑ i, ∑ j, Real.exp (A i j)) := by
  constructor
  · intro m n
    simp [WhisperFbank.compute_energy, Real.exp_zero, Finset.sum_const,
      Finset.card_univ, mul_comm]
  · intro m n A
    rfl

/-- C1: `extract` with a sampling rate differing from the configured one
fails immediately with the assertion message that interpolates both rates and
directs the caller to resample upstream, producing no output; with equal
rates no such error is raised (some output is returned). -/
theorem whisper_c1_extract_rate_guard (self : WhisperFbank)
    (melBank : ℕ → ℕ → ℕ → List (List ℝ)) (samples : AudioInput)
    (sampling_rate : ℕ) :
    (sampling_rate ≠ self.config.sampling_rate →
      self.extract melBank samples sampling_rate =
        .error (extractAssertMsg self.config.sampling_rate sampling_rate)) ∧
    (sampling_rate = self.config.sampling_rate →
      ∃ out, self.extract melBank samples sampling_rate = .ok out) ∧
    extractAssertMsg self.config.sampling_rate sampling_rate =
      "Fbank was instantiated for sampling_rate " ++
        toString self.config.sampling_rate ++ ", but sampling_rate=" ++
        toString sampling_rate ++
        " was passed to extract(). Note you can use CutSet/RecordingSet.resample() to change the audio sampling rate." := by
  refine ⟨fun h => ?_, fun h => ?_, rfl⟩
  · simp [WhisperFbank.extract, h]
  · cases samples <;>
      simp [WhisperFbank.extract, h, log_mel_spectrogram, AudioInput.is_numpy,
        AudioInput.data]

/-- C1 witness: configured 16000, called with 8000 fails with the message
naming both rates; called with 16000 it succeeds. -/
theorem whisper_c1_witness :
    (WhisperFbank.mk {}).extract melBank0 (.np [0]) 8000 =
        .error (extractAssertMsg 16000 8000) ∧
      ∃ out, (WhisperFbank.mk {}).extract melBank0 (.np [0]) 16000 = .ok out :=
  ⟨(whisper_c1_extract_rate_guard (WhisperFbank.mk {}) melBank0 (.np [0]) 8000).1
      (by decide),
    ((whisper_c1_extract_rate_guard (WhisperFbank.mk {}) melBank0 (.np [0]) 16000).2).1
      rfl⟩

/-- C3: on a valid call, a numpy input yields a numpy output and a tensor
input yields a tensor output, and both hold the same numeric feature values. -/
theorem whisper_c3_representation_roundtrip (self : WhisperFbank)
    (melBank : ℕ → ℕ → ℕ → List (List ℝ)) (d : List ℝ) (dev : String)
    (sampling_rate : ℕ) (h : sampling_rate = self.config.sampling_rate) :
    ∃ M, self.extract melBank (.np d) sampling_rate = .ok (.np M) ∧
      self.extract melBank (.tensor d dev) sampling_rate =
        .ok (.tensor M self.config.device) := by
  refine ⟨mel_pipeline d melBank self.config.num_filters self.config.n_fft
      self.config.hop_length self.config.sampling_rate, ?_, ?_⟩ <;>
    simp [WhisperFbank.extract, h, log_mel_spectrogram, AudioInput.is_numpy,
      AudioInput.data]

/-- C3 witness: with the default configuration, the same waveform passed as a
numpy array and as a tensor produces the two representations holding one and
the same matrix. -/
theorem whisper_c3_witness :
    ∃ M, (WhisperFbank.mk {}).extract melBank0 (.np [0]) 16000 = .ok (.np M) ∧
      (WhisperFbank.mk {}).extract melBank0 (.tensor [0] "cuda") 16000 =
        .ok (.tensor M "cpu") :=
  whisper_c3_representation_roundtrip (WhisperFbank.mk {}) melBank0 [0] "cuda"
    16000 rfl

/-- C8: `to(device)` rewrites only the device field of the bound
configuration; the numeric content of any extraction is unchanged, and a
tensor produced by a future valid `extract` call carries the new device. -/
theorem whisper_c8_to_mutates_only_device (w : WhisperFbank) (d : String) :
    (w.to d).config = { w.config with device := d } ∧
    (∀ (melBank : ℕ → ℕ → ℕ → List (List ℝ)) (samples : AudioInput)
        (sampling_rate : ℕ),
      featData ((w.to d).extract melBank samples sampling_rate) =
        featData (w.extract melBank samples sampling_rate)) ∧
    (∀ (melBank : ℕ → ℕ → ℕ → List (List ℝ)) (x : List ℝ) (dev : String)
        (sampling_rate : ℕ),
      featDevice ((w.to d).extract melBank (.tensor x dev) sampling_rate) =
        if sampling_rate = w.config.sampling_rate then some d else none) := by
  refine ⟨rfl, fun melBank samples sampling_rate => ?_, fun melBank x dev sampling_rate => ?_⟩
  · by_cases h : sampling_rate = w.config.sampling_rate
    · cases samples <;>
        simp [WhisperFbank.extract, WhisperFbank.to, h, log_mel_spectrogram,
          AudioInput.is_numpy, AudioInput.data, featData]
    · simp [WhisperFbank.extract, WhisperFbank.to, h, featData]
  · by_cases h : sampling_rate = w.config.sampling_rate
    · simp [WhisperFbank.extract, WhisperFbank.to, h, log_mel_spectrogram,
        AudioInput.is_numpy, AudioInput.data, featDevice]
    · simp [WhisperFbank.extract, WhisperFbank.to, h, featDevice]

/-- C4: the claim says a call with `pad_samples > 0` zero-pads and completes
normally, and the source docstring documents `padding` the same way; but the
`padding > 0` branch evaluates `F.pad` with `F` unbound (the module never
imports `torch.nn.functional`), so the call raises `NameError` instead.
Evaluated here at the failing input `padding = 1`. -/
theorem whisper_c4_pad_branch_name_error :
    log_mel_spectrogram [0] melBank0 80 400 160 16000 1 =
      .error "NameError: name F is not defined" := rfl

/-- C10: `extract` invokes the engine with `padding = 0` (the source passes no
padding argument), the `padding > 0` branch is skipped (the engine returns the
pipeline applied to the unpadded samples), and a valid `extract` call returns
exactly that unpadded-pipeline matrix in the caller's representation. -/
theorem whisper_c10_extract_never_pads (self : WhisperFbank)
    (melBank : ℕ → ℕ → ℕ → List (List ℝ)) (samples : AudioInput)
    (sampling_rate : ℕ) (h : sampling_rate = self.config.sampling_rate) :
    (log_mel_spectrogram samples.data melBank self.config.num_filters
        self.config.n_fft self.config.hop_length self.config.sampling_rate 0 =
      .ok (mel_pipeline samples.data melBank self.config.num_filters
        self.config.n_fft self.config.hop_length self.config.sampling_rate)) ∧
    self.extract melBank samples sampling_rate =
      .ok (cond samples.is_numpy
        (FeatureOutput.np (mel_pipeline samples.data melBank
          self.config.num_filters self.config.n_fft self.config.hop_length
          self.config.sampling_rate))
        (FeatureOutput.tensor (mel_pipeline samples.data melBank
          self.config.num_filters self.config.n_fft self.config.hop_length
          self.config.sampling_rate) self.config.device)) := by
  refine ⟨rfl, ?_⟩
  cases samples <;>
    simp [WhisperFbank.extract, h, log_mel_spectrogram, AudioInput.is_numpy,
      AudioInput.data]

/-- C10 witness: a concrete valid call goes through the unpadded pipeline. -/
theorem whisper_c10_witness :
    (WhisperFbank.mk {}).extract melBank0 (.np [0]) 16000 =
      .ok (cond (AudioInput.np [0]).is_numpy
        (FeatureOutput.np (mel_pipeline [0] melBank0 80 400 160 16000))
        (FeatureOutput.tensor (mel_pipeline [0] melBank0 80 400 160 16000) "cpu")) :=
  (whisper_c10_extract_never_pads (WhisperFbank.mk {}) melBank0 (.np [0])
    16000 rfl).2

/-- `matMax` of a matrix with at least one entry is a greatest element: it is
attained and bounds every entry of the whole matrix. -/
theorem matMax_spec {m : List (List ℝ)} (h : m.flatten ≠ []) :
    matMax m ∈ m.flatten ∧ ∀ x ∈ m.flatten, x ≤ matMax m := by
  have hb : m.flatten.maximum ≠ ⊥ := List.maximum_ne_bot_of_ne_nil h
  obtain ⟨a, ha⟩ := WithBot.ne_bot_iff_exists.mp hb
  have hmm : matMax m = a := by
    rw [matMax, ← ha]
    rfl
  obtain ⟨hmem, hub⟩ := List.maximum_eq_coe_iff.mp ha.symm
  exact ⟨hmm ▸ hmem, fun x hx => hmm ▸ hub x hx⟩

/-- C2: whenever the engine produces output, that output is the composition
of the spec's final steps applied to the mel energies: clamp at `1e-10` and
take the base-10 logarithm (`specLogMel`), clamp from below at `G - 8.0`
where `G` is one global maximum over the entire log matrix (attained by some
entry, and an upper bound for every entry of the whole matrix, not a
per-frame or per-bin maximum), then the affine map `(x + 4.0) / 4.0`. -/
theorem whisper_c2_log_tail (audio : List ℝ) (melBank : ℕ → ℕ → ℕ → List (List ℝ))
    (n_mels n_fft hop_length sampling_rate padding : ℕ) (out : List (List ℝ))
    (hok : log_mel_spectrogram audio melBank n_mels n_fft hop_length sampling_rate
      padding = .ok out)
    (hne : (specLogMel audio melBank n_mels n_fft hop_length sampling_rate).flatten ≠ []) :
    ∃ G, G ∈ (specLogMel audio melBank n_mels n_fft hop_length sampling_rate).flatten ∧
      (∀ x ∈ (specLogMel audio melBank n_mels n_fft hop_length sampling_rate).flatten,
        x ≤ G) ∧
      out = specAffine
        ((specLogMel audio melBank n_mels n_fft hop_length sampling_rate).map
          (List.map (fun x => max x (G - 8)))) := by
  have hL : specLogMel audio melBank n_mels n_fft hop_length sampling_rate =
      (mel_energies audio melBank n_mels n_fft hop_length sampling_rate).map
        (List.map (fun x => Real.logb 10 (max x (1e-10)))) := by
    simp [specLogMel, specLog10, specClampFloor, List.map_map, Function.comp]
  by_cases hp : padding > 0
  · simp [log_mel_spectrogram, hp] at hok
  · simp only [log_mel_spectrogram, hp, if_false, Except.ok.injEq, if_neg] at hok
    refine ⟨matMax (specLogMel audio melBank n_mels n_fft hop_length sampling_rate),
      (matMax_spec hne).1, (matMax_spec hne).2, ?_⟩
    rw [← hok, hL]
    simp [mel_pipeline, specAffine]

/-- C2 witness: a two-sample waveform through a one-filter bank; the engine
output decomposes through the spec's clamp, log, global-max clamp and affine
steps. -/
theorem whisper_c2_witness :
    ∃ G, G ∈ (specLogMel [0, 0] melBank0 1 2 1 16000).flatten ∧
      (∀ x ∈ (specLogMel [0, 0] melBank0 1 2 1 16000).flatten, x ≤ G) ∧
      mel_pipeline [0, 0] melBank0 1 2 1 16000 =
        specAffine ((specLogMel [0, 0] melBank0 1 2 1 16000).map
          (List.map (fun x => max x (G - 8)))) :=
  whisper_c2_log_tail [0, 0] melBank0 1 2 1 16000 0
    (mel_pipeline [0, 0] melBank0 1 2 1 16000) rfl
    (by simp [specLogMel, specLog10, specClampFloor, mel_energies, matMul,
      magnitudes, stft, melBank0, List.range_succ])
